import Mathlib

/-!
Verification of the sensors task module (`src/modules/src/sensors_task.c`) of the
Crazyflie control firmware.

The C module's mutable statics are collected in one explicit state record
(`ModuleState`); each C function becomes a state-transformer over it.  C `float`
arithmetic is modelled exactly over `ℚ` (the claims are about the algorithm, with
float rounding treated as epsilon noise by the specification); `sqrtf` is modelled
by `ratSqrt`, which is exact on perfect rational squares — the only points at which
the claims evaluate it.  Machine integers are modelled by `ℤ`/`ℕ`; the only
narrowing conversion the code performs is the assembly of `int16_t` words from
buffer bytes, modelled with an explicit `% 65536` in `toInt16`.  The raw I2C byte
buffer is a function `ℕ → ℕ` read through `byte` (which models the `uint8_t`
element type with `% 256`).
-/

/-- Three-axis record, modelling both `Axis3f` (over `ℚ`) and `Axis3i64` (over `ℤ`). -/
structure Axis3 (α : Type) where
  x : α
  y : α
  z : α
  deriving DecidableEq, Repr

/-- Modelling `baro_t`: pressure (mbar), temperature (°C), derived altitude. -/
structure BaroData where
  pressure : ℚ
  temperature : ℚ
  asl : ℚ
  deriving DecidableEq, Repr

/-- Modelling `sensorData_t` (the module-level `sensors` static). -/
structure SensorData where
  gyro : Axis3 ℚ
  acc : Axis3 ℚ
  mag : Axis3 ℚ
  baro : BaroData
  deriving DecidableEq, Repr

/-- All mutable statics of `sensors_task.c` in one record, including the four
single-slot output queues (a FreeRTOS queue of length 1 is an `Option`) and the
two `static` locals of `processBarometerMeasurements`. -/
structure ModuleState where
  isInit : Bool
  sensors : SensorData
  gyroBias : Axis3 ℚ
  gyroBiasSampleSum : Axis3 ℤ
  accScaleSum : ℚ
  accScale : ℚ
  gyroBiasStdDev : Axis3 ℚ
  gyroBiasSampleSumSquares : Axis3 ℤ
  sensorBiasSampleCount : ℕ
  sensorBiasFound : Bool
  isBarometerPresent : Bool
  isMagnetometerPresent : Bool
  isMpu6500TestPassed : Bool
  isAK8963TestPassed : Bool
  isLPS25HTestPassed : Bool
  rawPressure : ℕ
  rawTemp : ℤ
  accelerometerDataQueue : Option (Axis3 ℚ)
  gyroDataQueue : Option (Axis3 ℚ)
  magnetometerDataQueue : Option (Axis3 ℚ)
  barometerDataQueue : Option BaroData
  deriving DecidableEq, Repr

/-- The static initializers of the module (C zero-initialization, plus the explicit
`accScale = 1` and the three test flags initialized `true`); queues not yet created. -/
def initState : ModuleState where
  isInit := false
  sensors := { gyro := ⟨0, 0, 0⟩, acc := ⟨0, 0, 0⟩, mag := ⟨0, 0, 0⟩,
               baro := { pressure := 0, temperature := 0, asl := 0 } }
  gyroBias := ⟨0, 0, 0⟩
  gyroBiasSampleSum := ⟨0, 0, 0⟩
  accScaleSum := 0
  accScale := 1
  gyroBiasStdDev := ⟨0, 0, 0⟩
  gyroBiasSampleSumSquares := ⟨0, 0, 0⟩
  sensorBiasSampleCount := 0
  sensorBiasFound := false
  isBarometerPresent := false
  isMagnetometerPresent := false
  isMpu6500TestPassed := true
  isAK8963TestPassed := true
  isLPS25HTestPassed := true
  rawPressure := 0
  rawTemp := 0
  accelerometerDataQueue := none
  gyroDataQueue := none
  magnetometerDataQueue := none
  barometerDataQueue := none

/-- `#define IMU_SENSOR_BIAS_SAMPLES 1024`. -/
def IMU_SENSOR_BIAS_SAMPLES : ℕ := 1024

/-- Modelled from the spec: `MPU6500_DEG_PER_LSB_2000` from the device header
(`mpu6500.h`, not part of this repository snapshot): `(2*2000)/65536` °/s per LSB. -/
def IMU_DEG_PER_LSB_CFG : ℚ := 4000 / 65536

/-- Modelled from the spec: `MPU6500_G_PER_LSB_8` from the device header
(`mpu6500.h`, not part of this repository snapshot): `(2*8)/65536` g per LSB. -/
def IMU_G_PER_LSB_CFG : ℚ := 16 / 65536

/-- `#define MAG_GAUSS_PER_LSB 666.7f` (the float literal modelled as the exact
rational it denotes in source). -/
def MAG_GAUSS_PER_LSB : ℚ := 6667 / 10

/-- Modelled from the spec: the fixed pressure divisor of the LPS25H barometer
(`lps25h.h`, not part of this repository snapshot): 4096 LSB per mbar. -/
def LPS25H_LSB_PER_MBAR : ℚ := 4096

/-- Modelled from the spec: the fixed temperature divisor of the LPS25H barometer
(`lps25h.h`, not part of this repository snapshot): 480 LSB per °C. -/
def LPS25H_LSB_PER_CELSIUS : ℚ := 480

/-- Modelled from the spec: the fixed temperature offset of the LPS25H barometer
(`lps25h.h`, not part of this repository snapshot): 42.5 °C. -/
def LPS25H_TEMP_OFFSET : ℚ := 85 / 2

/-- Modelled from the spec: the data-ready bit position in the AK8963 ST1 status
byte (`ak8963.h`, not part of this repository snapshot): bit 0. -/
def AK8963_ST1_DRDY_BIT : ℕ := 0

/-- Reading the `uint8_t` buffer: element type constrains each cell to a byte. -/
def byte (buffer : ℕ → ℕ) (i : ℕ) : ℕ := buffer i % 256

/-- `(int16_t)(((int16_t) hi << 8) | lo)`: big-endian signed 16-bit word assembly,
with the narrowing conversion made explicit as `% 65536` two's-complement wrap. -/
def toInt16 (hi lo : ℕ) : ℤ :=
  let u := (hi * 256 + lo) % 65536
  if u < 32768 then (u : ℤ) else (u : ℤ) - 65536

/-- Model of `sqrtf` over exact rationals: exact on perfect rational squares
(the only inputs at which the specification's claims evaluate it), a `Nat.sqrt`
approximation elsewhere, and 0 on nonpositive input. -/
def ratSqrt (q : ℚ) : ℚ :=
  if q ≤ 0 then 0 else (Nat.sqrt q.num.toNat : ℚ) / (Nat.sqrt q.den : ℚ)

/-- The six signed 16-bit big-endian gyro/accel words of the inertial block in the
remapped axis order the code binds them to: `gx` at bytes 10–11, `gy` at 8–9,
`gz` at 12–13. -/
def gyroWords (buffer : ℕ → ℕ) : Axis3 ℤ :=
  ⟨toInt16 (byte buffer 10) (byte buffer 11),
   toInt16 (byte buffer 8) (byte buffer 9),
   toInt16 (byte buffer 12) (byte buffer 13)⟩

/-- The accelerometer words in the remapped axis order: `ax` at bytes 2–3,
`ay` at 0–1, `az` at 4–5. -/
def accelWords (buffer : ℕ → ℕ) : Axis3 ℤ :=
  ⟨toInt16 (byte buffer 2) (byte buffer 3),
   toInt16 (byte buffer 0) (byte buffer 1),
   toInt16 (byte buffer 4) (byte buffer 5)⟩

/-- The per-cycle accelerometer magnitude term accumulated into `accScaleSum`:
`sqrtf(powf(ax*G,2) + powf(ay*G,2) + powf(az*G,2))`, with unit scale (no
`accScale` division, no bias). -/
def accMag (buffer : ℕ → ℕ) : ℚ :=
  ratSqrt ((((accelWords buffer).x : ℚ) * IMU_G_PER_LSB_CFG) ^ 2 +
           (((accelWords buffer).y : ℚ) * IMU_G_PER_LSB_CFG) ^ 2 +
           (((accelWords buffer).z : ℚ) * IMU_G_PER_LSB_CFG) ^ 2)

/-- `processAccGyroMeasurements` (lines 201–247): decode the six words, run the
calibration accumulation while `sensorBiasFound` is false (computing bias, std-dev
and accel scale on the 1024th sample), then produce the remapped, bias- and
scale-corrected `sensors.gyro` / `sensors.acc` outputs. -/
def processAccGyroMeasurements (buffer : ℕ → ℕ) (s : ModuleState) : ModuleState :=
  let ay : ℤ := toInt16 (byte buffer 0) (byte buffer 1)
  let ax : ℤ := toInt16 (byte buffer 2) (byte buffer 3)
  let az : ℤ := toInt16 (byte buffer 4) (byte buffer 5)
  let gy : ℤ := toInt16 (byte buffer 8) (byte buffer 9)
  let gx : ℤ := toInt16 (byte buffer 10) (byte buffer 11)
  let gz : ℤ := toInt16 (byte buffer 12) (byte buffer 13)
  let s1 :=
    if s.sensorBiasFound then s
    else
      let sum : Axis3 ℤ :=
        ⟨s.gyroBiasSampleSum.x + gx, s.gyroBiasSampleSum.y + gy, s.gyroBiasSampleSum.z + gz⟩
      let sumSq : Axis3 ℤ :=
        ⟨s.gyroBiasSampleSumSquares.x + gx * gx,
         s.gyroBiasSampleSumSquares.y + gy * gy,
         s.gyroBiasSampleSumSquares.z + gz * gz⟩
      let acs : ℚ := s.accScaleSum +
        ratSqrt (((ax : ℚ) * IMU_G_PER_LSB_CFG) ^ 2 +
                 ((ay : ℚ) * IMU_G_PER_LSB_CFG) ^ 2 +
                 ((az : ℚ) * IMU_G_PER_LSB_CFG) ^ 2)
      let cnt : ℕ := s.sensorBiasSampleCount + 1
      let s2 := { s with gyroBiasSampleSum := sum, gyroBiasSampleSumSquares := sumSq,
                         accScaleSum := acs, sensorBiasSampleCount := cnt }
      if cnt = IMU_SENSOR_BIAS_SAMPLES then
        let bias : Axis3 ℚ :=
          ⟨(sum.x : ℚ) / (IMU_SENSOR_BIAS_SAMPLES : ℚ),
           (sum.y : ℚ) / (IMU_SENSOR_BIAS_SAMPLES : ℚ),
           (sum.z : ℚ) / (IMU_SENSOR_BIAS_SAMPLES : ℚ)⟩
        { s2 with
          gyroBias := bias,
          gyroBiasStdDev :=
            ⟨ratSqrt ((sumSq.x : ℚ) / (IMU_SENSOR_BIAS_SAMPLES : ℚ) - bias.x * bias.x),
             ratSqrt ((sumSq.y : ℚ) / (IMU_SENSOR_BIAS_SAMPLES : ℚ) - bias.y * bias.y),
             ratSqrt ((sumSq.z : ℚ) / (IMU_SENSOR_BIAS_SAMPLES : ℚ) - bias.z * bias.z)⟩,
          accScale := acs / (IMU_SENSOR_BIAS_SAMPLES : ℚ),
          sensorBiasFound := true }
      else s2
  { s1 with sensors := { s1.sensors with
      gyro := ⟨-((gx : ℚ) - s1.gyroBias.x) * IMU_DEG_PER_LSB_CFG,
               ((gy : ℚ) - s1.gyroBias.y) * IMU_DEG_PER_LSB_CFG,
               ((gz : ℚ) - s1.gyroBias.z) * IMU_DEG_PER_LSB_CFG⟩,
      acc := ⟨-(ax : ℚ) * IMU_G_PER_LSB_CFG / s1.accScale,
              (ay : ℚ) * IMU_G_PER_LSB_CFG / s1.accScale,
              (az : ℚ) * IMU_G_PER_LSB_CFG / s1.accScale⟩ } }

/-- `processMagnetometerMeasurements` (lines 188–199): decode only when the
data-ready bit of status byte 0 is set; otherwise the state (in particular the
previously decoded `sensors.mag`) is untouched. -/
def processMagnetometerMeasurements (buffer : ℕ → ℕ) (s : ModuleState) : ModuleState :=
  if byte buffer 0 &&& (1 <<< AK8963_ST1_DRDY_BIT) ≠ 0 then
    let headingx : ℤ := toInt16 (byte buffer 2) (byte buffer 1)
    let headingy : ℤ := toInt16 (byte buffer 4) (byte buffer 3)
    let headingz : ℤ := toInt16 (byte buffer 6) (byte buffer 5)
    { s with sensors := { s.sensors with
        mag := ⟨(headingx : ℚ) / MAG_GAUSS_PER_LSB,
                (headingy : ℚ) / MAG_GAUSS_PER_LSB,
                (headingz : ℚ) / MAG_GAUSS_PER_LSB⟩ } }
  else s

/-- `processBarometerMeasurements` (lines 169–186): the two dirty bits of status
byte 0 independently gate the persistent `rawPressure` (24-bit little-endian) and
`rawTemp` (16-bit) statics; conversion to mbar/°C always runs on the (possibly
retained) raw values, and the altitude collaborator `alt` (external
`lps25hPressureToAltitude`) is applied to the fresh pressure. -/
def processBarometerMeasurements (alt : ℚ → ℚ) (buffer : ℕ → ℕ) (s : ModuleState) :
    ModuleState :=
  let rawPressure : ℕ :=
    if byte buffer 0 &&& 2 ≠ 0 then
      (byte buffer 3 <<< 16) ||| (byte buffer 2 <<< 8) ||| byte buffer 1
    else s.rawPressure
  let rawTemp : ℤ :=
    if byte buffer 0 &&& 1 ≠ 0 then toInt16 (byte buffer 5) (byte buffer 4)
    else s.rawTemp
  let pressure : ℚ := (rawPressure : ℚ) / LPS25H_LSB_PER_MBAR
  { s with rawPressure := rawPressure, rawTemp := rawTemp,
           sensors := { s.sensors with baro :=
             { pressure := pressure,
               temperature := LPS25H_TEMP_OFFSET + (rawTemp : ℚ) / LPS25H_LSB_PER_CELSIUS,
               asl := alt pressure } } }

/-- `sensorsReadGyro` (lines 104–106): `xQueueReceive` with zero timeout on the
single-slot gyro queue — returns whether data was present, the value received,
and the state with the slot consumed. -/
def sensorsReadGyro (s : ModuleState) : Bool × Option (Axis3 ℚ) × ModuleState :=
  match s.gyroDataQueue with
  | some v => (true, some v, { s with gyroDataQueue := none })
  | none => (false, none, s)

/-- `sensorsReadAcc` (lines 108–110). -/
def sensorsReadAcc (s : ModuleState) : Bool × Option (Axis3 ℚ) × ModuleState :=
  match s.accelerometerDataQueue with
  | some v => (true, some v, { s with accelerometerDataQueue := none })
  | none => (false, none, s)

/-- `sensorsReadMag` (lines 112–114). -/
def sensorsReadMag (s : ModuleState) : Bool × Option (Axis3 ℚ) × ModuleState :=
  match s.magnetometerDataQueue with
  | some v => (true, some v, { s with magnetometerDataQueue := none })
  | none => (false, none, s)

/-- `sensorsReadBaro` (lines 116–119). -/
def sensorsReadBaro (s : ModuleState) : Bool × Option BaroData × ModuleState :=
  match s.barometerDataQueue with
  | some v => (true, some v, { s with barometerDataQueue := none })
  | none => (false, none, s)

/-- `sensorsTaskInit` (lines 391–398): `xQueueCreate(1, ...)` for the four output
queues — four fresh, empty single slots. -/
def sensorsTaskInit (s : ModuleState) : ModuleState :=
  { s with accelerometerDataQueue := none, gyroDataQueue := none,
           magnetometerDataQueue := none, barometerDataQueue := none }

/-- The publish step of `sensorsTask` (lines 159–164): inside the
`vTaskSuspendAll`/`xTaskResumeAll` critical section, `xQueueOverwrite` the four
queues from `sensors`, the magnetometer/barometer slots only when present. -/
def sensorsTaskPublish (s : ModuleState) : ModuleState :=
  { s with accelerometerDataQueue := some s.sensors.acc,
           gyroDataQueue := some s.sensors.gyro,
           magnetometerDataQueue :=
             if s.isMagnetometerPresent then some s.sensors.mag else s.magnetometerDataQueue,
           barometerDataQueue :=
             if s.isBarometerPresent then some s.sensors.baro else s.barometerDataQueue }

/-- `sensorsInit` (lines 431–442): early return when `isInit`; otherwise device
init fixes the presence flags from the connectivity probes (`probeMag`,
`probeBaro`), the task init creates the queues, and `isInit` is set. -/
def sensorsInit (probeMag probeBaro : Bool) (s : ModuleState) : ModuleState :=
  if s.isInit then s
  else
    let s1 := { s with isMagnetometerPresent := probeMag, isBarometerPresent := probeBaro }
    let s2 := sensorsTaskInit s1
    { s2 with isInit := true }

/-- The primary self-test retry loop of `sensorsTest` (lines 456–467): up to
`remaining` attempts starting at attempt index `i`, stopping at the first pass.
Returns (passed, number of `mpu6500SelfTest` calls made). -/
def mpuLoop (f : ℕ → Bool) : ℕ → ℕ → Bool × ℕ
  | _, 0 => (false, 0)
  | i, r + 1 =>
    if f i then (true, 1)
    else
      let p := mpuLoop f (i + 1) r
      (p.1, p.2 + 1)

/-- Result record of one `sensorsTest` run: the returned status, the final module
state, and how many times each device self-test was invoked. -/
structure TestRun where
  result : Bool
  finalState : ModuleState
  mpuCalls : ℕ
  akCalls : ℕ
  lpsCalls : ℕ
  deriving DecidableEq, Repr

/-- `sensorsTest` (lines 444–489): `f i` is the result of the i-th
`mpu6500SelfTest` attempt, `ak`/`lps` the results of `ak8963SelfTest` /
`lps25hSelfTest` (performed only when reached). `testStatus` starts at
`isInit`, is AND-folded with the primary pass and the magnetometer presence;
only then the magnetometer self-test runs and replaces the status, which is
AND-folded with the barometer presence; only then the barometer self-test runs. -/
def sensorsTest (f : ℕ → Bool) (ak lps : Bool) (s : ModuleState) : TestRun :=
  let p := mpuLoop f 0 300
  let t2 := (s.isInit && p.1) && s.isMagnetometerPresent
  if t2 then
    let t3 := ak && s.isBarometerPresent
    if t3 then
      { result := lps,
        finalState := { s with isAK8963TestPassed := ak, isLPS25HTestPassed := lps },
        mpuCalls := p.2, akCalls := 1, lpsCalls := 1 }
    else
      { result := t3, finalState := { s with isAK8963TestPassed := ak },
        mpuCalls := p.2, akCalls := 1, lpsCalls := 0 }
  else
    { result := false, finalState := s, mpuCalls := p.2, akCalls := 0, lpsCalls := 0 }

/-- Iterated acquisition cycles of the inertial block: `runCycles bufs k s` runs
`processAccGyroMeasurements` on `bufs 0`, …, `bufs (k-1)` starting from `s`. -/
def runCycles (bufs : ℕ → ℕ → ℕ) : ℕ → ModuleState → ModuleState
  | 0, s => s
  | k + 1, s => processAccGyroMeasurements (bufs k) (runCycles bufs k s)

/-- The four output channels of the publish step. -/
inductive Chan
  | chanAcc
  | chanGyro
  | chanMag
  | chanBaro
  deriving DecidableEq, Repr

/-- Abstract slot state for the publish/read interleaving model: each channel
slot holds the acquisition-cycle index that produced its pending value (values
abstracted to their cycle of origin), or nothing. -/
def Slots : Type := Chan → Option ℕ

/-- Events of the interleaving model: a `publish n` is the whole
`vTaskSuspendAll` critical section of `sensorsTask` (lines 159–164) writing all
four slots from cycle `n` — indivisible because the scheduler is suspended, with
both auxiliary devices present; a `readCh c` is one destructive
`sensorsRead*` call by the observer. -/
inductive PubEv
  | publish (n : ℕ)
  | readCh (c : Chan)
  deriving DecidableEq, Repr

/-- Whether an event is an observer read. -/
def isReadEv : PubEv → Bool
  | PubEv.publish _ => false
  | PubEv.readCh _ => true

/-- The atomic publish: all four slots overwritten with cycle `n`. -/
def pubStep (_s : Slots) (n : ℕ) : Slots := fun _ => some n

/-- A destructive read of channel `c`: returns the pending value and clears it. -/
def readStep (s : Slots) (c : Chan) : Option ℕ × Slots :=
  (s c, fun c' => if c' = c then none else s c')

/-- No slot holds data before the first publish. -/
def emptySlots : Slots := fun _ => none

/-- Run a trace of events; returns the final slots and the list of
(channel, observed value) pairs of the reads, in trace order. -/
def runTrace : List PubEv → Slots → Slots × List (Chan × Option ℕ)
  | [], s => (s, [])
  | PubEv.publish n :: rest, s => runTrace rest (pubStep s n)
  | PubEv.readCh c :: rest, s =>
    let r := readStep s c
    let t := runTrace rest r.2
    (t.1, (c, r.1) :: t.2)

/-- All pending slot values originate from a single acquisition cycle. -/
def slotsConsistent (s : Slots) : Prop :=
  ∀ c c' n n', s c = some n → s c' = some n' → n = n'

/-- Golden raw inertial frame for the decode claim: bytes 0–13 of the MPU6500
block (accel words at 0–5, temperature at 6–7, gyro words at 8–13). -/
def goldenBuf : ℕ → ℕ
  | 0 => 1
  | 1 => 2
  | 2 => 255
  | 3 => 254
  | 4 => 0
  | 5 => 16
  | 8 => 128
  | 9 => 0
  | 10 => 0
  | 11 => 1
  | 12 => 127
  | 13 => 255
  | _ => 0

/-- Module state for the golden decode: calibration already finished, with a
nontrivial bias and accel scale. -/
def goldenState : ModuleState :=
  { initState with sensorBiasFound := true, gyroBias := ⟨1, 2, 3⟩, accScale := 2 }

/-- C2: the inertial decoder produces `gyro = (−(raw.x−bias.x), +(raw.y−bias.y),
+(raw.z−bias.z))·degPerLsb` and `acc = (−raw.x, +raw.y, +raw.z)·gPerLsb/accScale`,
where the raw words are the signed 16-bit big-endian words at device-order
offsets (accel at bytes 0–5, gyro at bytes 8–13) under the 90° mounting remap
(x words at bytes 2–3 / 10–11, y words at bytes 0–1 / 8–9); and the golden raw
frame decodes to exactly the values of this sign/axis table. -/
theorem inertialDecode_axis_sign_table (buffer : ℕ → ℕ) (s : ModuleState) :
    (processAccGyroMeasurements buffer s).sensors.gyro.x =
      -((toInt16 (byte buffer 10) (byte buffer 11) : ℚ) -
          (processAccGyroMeasurements buffer s).gyroBias.x) * IMU_DEG_PER_LSB_CFG ∧
    (processAccGyroMeasurements buffer s).sensors.gyro.y =
      ((toInt16 (byte buffer 8) (byte buffer 9) : ℚ) -
          (processAccGyroMeasurements buffer s).gyroBias.y) * IMU_DEG_PER_LSB_CFG ∧
    (processAccGyroMeasurements buffer s).sensors.gyro.z =
      ((toInt16 (byte buffer 12) (byte buffer 13) : ℚ) -
          (processAccGyroMeasurements buffer s).gyroBias.z) * IMU_DEG_PER_LSB_CFG ∧
    (processAccGyroMeasurements buffer s).sensors.acc.x =
      -(toInt16 (byte buffer 2) (byte buffer 3) : ℚ) * IMU_G_PER_LSB_CFG /
          (processAccGyroMeasurements buffer s).accScale ∧
    (processAccGyroMeasurements buffer s).sensors.acc.y =
      (toInt16 (byte buffer 0) (byte buffer 1) : ℚ) * IMU_G_PER_LSB_CFG /
          (processAccGyroMeasurements buffer s).accScale ∧
    (processAccGyroMeasurements buffer s).sensors.acc.z =
      (toInt16 (byte buffer 4) (byte buffer 5) : ℚ) * IMU_G_PER_LSB_CFG /
          (processAccGyroMeasurements buffer s).accScale ∧
    (processAccGyroMeasurements goldenBuf goldenState).sensors.gyro =
      ⟨0, -2048125 / 1024, 1023875 / 512⟩ ∧
    (processAccGyroMeasurements goldenBuf goldenState).sensors.acc =
      ⟨1 / 4096, 129 / 4096, 1 / 512⟩ := by
  refine ⟨rfl, rfl, rfl, rfl, rfl, rfl, ?_, ?_⟩ <;>
    norm_num [processAccGyroMeasurements, goldenState, goldenBuf, initState, byte,
              toInt16, IMU_DEG_PER_LSB_CFG, IMU_G_PER_LSB_CFG, Axis3.mk.injEq]

/-- C7: when the data-ready bit of magnetometer status byte 0 is clear the decoder
changes nothing (so `sensors.mag` is retained across any run of such cycles);
when it is set, `sensors.mag` is updated from the three signed 16-bit fields
divided by the gauss divisor. -/
theorem magDecode_drdy_gating (buffer : ℕ → ℕ) (s : ModuleState) :
    (byte buffer 0 &&& (1 <<< AK8963_ST1_DRDY_BIT) = 0 →
      processMagnetometerMeasurements buffer s = s) ∧
    (∀ bufs : List (ℕ → ℕ),
      (∀ b ∈ bufs, byte b 0 &&& (1 <<< AK8963_ST1_DRDY_BIT) = 0) →
      (bufs.foldl (fun st b => processMagnetometerMeasurements b st) s).sensors.mag =
        s.sensors.mag) ∧
    (byte buffer 0 &&& (1 <<< AK8963_ST1_DRDY_BIT) ≠ 0 →
      (processMagnetometerMeasurements buffer s).sensors.mag =
        ⟨(toInt16 (byte buffer 2) (byte buffer 1) : ℚ) / MAG_GAUSS_PER_LSB,
         (toInt16 (byte buffer 4) (byte buffer 3) : ℚ) / MAG_GAUSS_PER_LSB,
         (toInt16 (byte buffer 6) (byte buffer 5) : ℚ) / MAG_GAUSS_PER_LSB⟩) := by
  refine ⟨fun h => by simp [processMagnetometerMeasurements, h], ?_,
          fun h => by simp [processMagnetometerMeasurements, h]⟩
  intro bufs h
  induction bufs generalizing s with
  | nil => rfl
  | cons b bs ih =>
    have hb : processMagnetometerMeasurements b s = s := by
      simp [processMagnetometerMeasurements, h b (List.mem_cons_self b bs)]
    simp only [List.foldl_cons, hb]
    exact ih s (fun b' hb' => h b' (List.mem_cons_of_mem b hb'))

/-- C7 witness: on a frame with status byte 0 the magnetometer state is retained;
on a frame with status byte 1 it is updated from the payload. -/
theorem magDecode_drdy_gating_witness :
    byte (fun _ => 0) 0 &&& (1 <<< AK8963_ST1_DRDY_BIT) = 0 ∧
    processMagnetometerMeasurements (fun _ => 0) initState = initState ∧
    byte (fun _ => 1) 0 &&& (1 <<< AK8963_ST1_DRDY_BIT) ≠ 0 ∧
    (processMagnetometerMeasurements (fun _ => 1) initState).sensors.mag =
      ⟨(toInt16 1 1 : ℚ) / MAG_GAUSS_PER_LSB, (toInt16 1 1 : ℚ) / MAG_GAUSS_PER_LSB,
       (toInt16 1 1 : ℚ) / MAG_GAUSS_PER_LSB⟩ :=
  ⟨by decide, (magDecode_drdy_gating (fun _ => 0) initState).1 (by decide), by decide,
   (magDecode_drdy_gating (fun _ => 1) initState).2.2 (by decide)⟩

/-- Barometer block with a chosen status byte and fixed payload bytes
`10 20 30 40 50` (pressure bytes 1–3, temperature bytes 4–5). -/
def baroBuf (status : ℕ) : ℕ → ℕ := fun i => [status, 10, 20, 30, 40, 50].getD i 0

/-- Barometer start state with recognizable previously retained raw values. -/
def baroState : ModuleState := { initState with rawPressure := 7, rawTemp := 9 }

/-- C8: the two dirty bits of barometer status byte 0 independently gate the
persistent raw pressure (24-bit little-endian, bit 0x02) and raw temperature
(16-bit, bit 0x01) — an unset bit retains the previous cycle's raw value — and
the mbar/°C conversions and derived altitude are always computed from the
resulting raw values; concretely, for the same payload under all four status-bit
combinations the two fields update exactly per their own bit. -/
theorem baroDecode_dirty_bits (alt : ℚ → ℚ) (buffer : ℕ → ℕ) (s : ModuleState) :
    (processBarometerMeasurements alt buffer s).rawPressure =
      (if byte buffer 0 &&& 2 ≠ 0 then
        (byte buffer 3 <<< 16) ||| (byte buffer 2 <<< 8) ||| byte buffer 1
       else s.rawPressure) ∧
    (processBarometerMeasurements alt buffer s).rawTemp =
      (if byte buffer 0 &&& 1 ≠ 0 then toInt16 (byte buffer 5) (byte buffer 4)
       else s.rawTemp) ∧
    (processBarometerMeasurements alt buffer s).sensors.baro.pressure =
      ((processBarometerMeasurements alt buffer s).rawPressure : ℚ) / LPS25H_LSB_PER_MBAR ∧
    (processBarometerMeasurements alt buffer s).sensors.baro.temperature =
      LPS25H_TEMP_OFFSET +
        ((processBarometerMeasurements alt buffer s).rawTemp : ℚ) / LPS25H_LSB_PER_CELSIUS ∧
    (processBarometerMeasurements alt buffer s).sensors.baro.asl =
      alt ((processBarometerMeasurements alt buffer s).sensors.baro.pressure) ∧
    (processBarometerMeasurements alt (baroBuf 0) baroState).rawPressure = 7 ∧
    (processBarometerMeasurements alt (baroBuf 0) baroState).rawTemp = 9 ∧
    (processBarometerMeasurements alt (baroBuf 1) baroState).rawPressure = 7 ∧
    (processBarometerMeasurements alt (baroBuf 1) baroState).rawTemp = 12840 ∧
    (processBarometerMeasurements alt (baroBuf 2) baroState).rawPressure = 1971210 ∧
    (processBarometerMeasurements alt (baroBuf 2) baroState).rawTemp = 9 ∧
    (processBarometerMeasurements alt (baroBuf 3) baroState).rawPressure = 1971210 ∧
    (processBarometerMeasurements alt (baroBuf 3) baroState).rawTemp = 12840 := by
  refine ⟨rfl, rfl, rfl, rfl, rfl, ?_, ?_, ?_, ?_, ?_, ?_, ?_, ?_⟩ <;>
    simp [processBarometerMeasurements, baroBuf, baroState, byte, toInt16, initState]

/-- C4: destructive-read law for the four channels: after queue creation a read
reports no data; after one publish the next read returns the published value with
`true`; a further read with no intervening write reports no data again. -/
theorem channel_destructive_read (s : ModuleState)
    (hm : s.isMagnetometerPresent = true) (hb : s.isBarometerPresent = true) :
    (sensorsReadAcc (sensorsTaskInit s)).1 = false ∧
    (sensorsReadGyro (sensorsTaskInit s)).1 = false ∧
    (sensorsReadMag (sensorsTaskInit s)).1 = false ∧
    (sensorsReadBaro (sensorsTaskInit s)).1 = false ∧
    (sensorsReadAcc (sensorsTaskPublish (sensorsTaskInit s))).1 = true ∧
    (sensorsReadAcc (sensorsTaskPublish (sensorsTaskInit s))).2.1 = some s.sensors.acc ∧
    (sensorsReadAcc ((sensorsReadAcc (sensorsTaskPublish (sensorsTaskInit s))).2.2)).1 =
      false ∧
    (sensorsReadGyro (sensorsTaskPublish (sensorsTaskInit s))).1 = true ∧
    (sensorsReadGyro (sensorsTaskPublish (sensorsTaskInit s))).2.1 = some s.sensors.gyro ∧
    (sensorsReadGyro ((sensorsReadGyro (sensorsTaskPublish (sensorsTaskInit s))).2.2)).1 =
      false ∧
    (sensorsReadMag (sensorsTaskPublish (sensorsTaskInit s))).1 = true ∧
    (sensorsReadMag (sensorsTaskPublish (sensorsTaskInit s))).2.1 = some s.sensors.mag ∧
    (sensorsReadMag ((sensorsReadMag (sensorsTaskPublish (sensorsTaskInit s))).2.2)).1 =
      false ∧
    (sensorsReadBaro (sensorsTaskPublish (sensorsTaskInit s))).1 = true ∧
    (sensorsReadBaro (sensorsTaskPublish (sensorsTaskInit s))).2.1 = some s.sensors.baro ∧
    (sensorsReadBaro ((sensorsReadBaro (sensorsTaskPublish (sensorsTaskInit s))).2.2)).1 =
      false := by
  simp [sensorsTaskInit, sensorsTaskPublish, sensorsReadAcc, sensorsReadGyro,
        sensorsReadMag, sensorsReadBaro, hm, hb]

/-- C4 witness: a concrete state with both auxiliary devices present satisfies
the hypotheses; the gyro channel returns no data on a never-written slot. -/
theorem channel_destructive_read_witness :
    ({ initState with isMagnetometerPresent := true,
                      isBarometerPresent := true } : ModuleState).isMagnetometerPresent
      = true ∧
    ({ initState with isMagnetometerPresent := true,
                      isBarometerPresent := true } : ModuleState).isBarometerPresent
      = true ∧
    (sensorsReadGyro (sensorsTaskInit
      { initState with isMagnetometerPresent := true,
                       isBarometerPresent := true })).1 = false :=
  ⟨rfl, rfl,
   (channel_destructive_read
     { initState with isMagnetometerPresent := true, isBarometerPresent := true }
     rfl rfl).2.1⟩

/-- C10: `sensorsInit` is idempotent — once `isInit` holds a call returns the
state unchanged, any first completed call establishes `isInit`, and a repeated
call after any completed call changes nothing. -/
theorem sensorsInit_idempotent (s : ModuleState) (h : s.isInit = true) (p b : Bool) :
    sensorsInit p b s = s ∧
    ∀ (q r : Bool) (s' : ModuleState),
      (sensorsInit q r s').isInit = true ∧
      sensorsInit p b (sensorsInit q r s') = sensorsInit q r s' := by
  refine ⟨by simp [sensorsInit, h], ?_⟩
  intro q r s'
  by_cases h' : s'.isInit
  · simp [sensorsInit, h']
  · simp [sensorsInit, h', sensorsTaskInit]

/-- C10 witness: a state with `isInit` set is returned unchanged. -/
theorem sensorsInit_idempotent_witness :
    ({ initState with isInit := true } : ModuleState).isInit = true ∧
    sensorsInit true true { initState with isInit := true } =
      { initState with isInit := true } :=
  ⟨rfl, (sensorsInit_idempotent { initState with isInit := true } rfl true true).1⟩

/-- The retry loop reports a pass exactly when some attempt within its budget
passes. -/
theorem mpuLoop_pass_iff (f : ℕ → Bool) :
    ∀ (r i : ℕ), (mpuLoop f i r).1 = true ↔ ∃ k, k < r ∧ f (i + k) = true := by
  intro r
  induction r with
  | zero => intro i; simp [mpuLoop]
  | succ r ih =>
    intro i
    by_cases h : f i = true
    · have hstep : mpuLoop f i (r + 1) = (true, 1) := by simp [mpuLoop, h]
      rw [hstep]
      exact ⟨fun _ => ⟨0, Nat.succ_pos r, by simpa using h⟩, fun _ => rfl⟩
    · simp only [mpuLoop, h, if_neg, Bool.false_eq_true, not_false_iff]
      rw [ih (i + 1)]
      constructor
      · rintro ⟨k, hk, hf⟩
        exact ⟨k + 1, by omega, by simpa [Nat.add_assoc, Nat.add_comm 1 k] using hf⟩
      · rintro ⟨k, hk, hf⟩
        match k with
        | 0 => exact absurd (by simpa using hf) h
        | k + 1 =>
          exact ⟨k, by omega, by simpa [Nat.add_assoc, Nat.add_comm 1 k] using hf⟩

/-- When every attempt in the budget fails, the loop runs all of them and fails. -/
theorem mpuLoop_all_fail (f : ℕ → Bool) :
    ∀ (r i : ℕ), (∀ k, k < r → f (i + k) = false) → mpuLoop f i r = (false, r) := by
  intro r
  induction r with
  | zero => intro i _; rfl
  | succ r ih =>
    intro i h
    have h0 : f i = false := by simpa using h 0 (Nat.succ_pos r)
    have hrest : mpuLoop f (i + 1) r = (false, r) := by
      refine ih (i + 1) fun k hk => ?_
      simpa [Nat.add_assoc, Nat.add_comm 1 k] using h (k + 1) (by omega)
    simp [mpuLoop, h0, hrest]

/-- The loop stops at the first passing attempt: if attempt `j` is the first to
pass, exactly `j + 1` attempts are made. -/
theorem mpuLoop_first_pass (f : ℕ → Bool) :
    ∀ (r i j : ℕ), j < r → f (i + j) = true → (∀ k, k < j → f (i + k) = false) →
      mpuLoop f i r = (true, j + 1) := by
  intro r
  induction r with
  | zero => intro i j hj; omega
  | succ r ih =>
    intro i j hj hfj hfirst
    match j with
    | 0 =>
      have : f i = true := by simpa using hfj
      simp [mpuLoop, this]
    | j + 1 =>
      have h0 : f i = false := by simpa using hfirst 0 (Nat.succ_pos j)
      have hrest : mpuLoop f (i + 1) r = (true, j + 1) := by
        refine ih (i + 1) j (by omega) (by simpa [Nat.add_assoc, Nat.add_comm 1 j] using hfj)
          fun k hk => ?_
        simpa [Nat.add_assoc, Nat.add_comm 1 k] using hfirst (k + 1) (by omega)
      simp [mpuLoop, h0, hrest]

/-- The returned status is the AND-reduction of init, primary pass, magnetometer
presence and pass, and barometer presence and pass. -/
theorem sensorsTest_result (f : ℕ → Bool) (ak lps : Bool) (s : ModuleState) :
    (sensorsTest f ak lps s).result =
      (((s.isInit && (mpuLoop f 0 300).1) && s.isMagnetometerPresent) &&
        ((ak && s.isBarometerPresent) && lps)) := by
  simp only [sensorsTest]
  split_ifs with h1 h2 <;> simp_all

/-- The number of primary self-test attempts is that of the retry loop, on every
path through the orchestrator. -/
theorem sensorsTest_mpuCalls (f : ℕ → Bool) (ak lps : Bool) (s : ModuleState) :
    (sensorsTest f ak lps s).mpuCalls = (mpuLoop f 0 300).2 := by
  simp only [sensorsTest]
  split_ifs <;> rfl

/-- C5 counterexample: with init done, a magnetometer absent and a primary
self-test that passes on the very first attempt, `sensorsTest` returns false
after only one attempt — it does not return false "only when all 300 attempts
are exhausted without a pass", nor true "immediately upon the first pass". -/
theorem runSelfTest_claim_counterexample :
    (sensorsTest (fun _ => true) true true { initState with isInit := true }).result
      = false ∧
    (sensorsTest (fun _ => true) true true { initState with isInit := true }).mpuCalls
      = 1 ∧
    (fun _ => true : ℕ → Bool) 0 = true := by
  refine ⟨rfl, rfl, rfl⟩

/-- C5 (amended): `sensorsTest` returns true iff init completed, some primary
attempt among the 300 passes, and the magnetometer and barometer are present
with passing self-tests; if all 300 attempts fail it returns false after making
all 300 attempts; and on a first pass at attempt `j` the retry loop stops
immediately, after `j + 1` attempts. -/
theorem runSelfTest_retry (f : ℕ → Bool) (ak lps : Bool) (s : ModuleState) :
    ((sensorsTest f ak lps s).result = true ↔
      (s.isInit = true ∧ (∃ k, k < 300 ∧ f k = true) ∧ s.isMagnetometerPresent = true ∧
        ak = true ∧ s.isBarometerPresent = true ∧ lps = true)) ∧
    ((∀ k, k < 300 → f k = false) →
      (sensorsTest f ak lps s).result = false ∧
      (sensorsTest f ak lps s).mpuCalls = 300) ∧
    (∀ j, j < 300 → f j = true → (∀ k, k < j → f k = false) →
      (sensorsTest f ak lps s).mpuCalls = j + 1) := by
  have hpass : (mpuLoop f 0 300).1 = true ↔ ∃ k, k < 300 ∧ f k = true := by
    simpa using mpuLoop_pass_iff f 300 0
  refine ⟨?_, ?_, ?_⟩
  · rw [sensorsTest_result]
    simp only [Bool.and_eq_true, hpass]
    tauto
  · intro h
    have hl : mpuLoop f 0 300 = (false, 300) := by
      simpa using mpuLoop_all_fail f 300 0 (by simpa using h)
    constructor
    · rw [sensorsTest_result, hl]
      simp
    · rw [sensorsTest_mpuCalls, hl]
  · intro j hj hfj hfirst
    have hl : mpuLoop f 0 300 = (true, j + 1) :=
      mpuLoop_first_pass f 300 0 j hj (by simpa using hfj) (by simpa using hfirst)
    rw [sensorsTest_mpuCalls, hl]

/-- C5 witness: with all attempts failing the orchestrator reports false after
300 attempts, and with a first-attempt pass the loop stops after one attempt. -/
theorem runSelfTest_retry_witness :
    (∀ k, k < 300 → (fun _ => false : ℕ → Bool) k = false) ∧
    (sensorsTest (fun _ => false) true true initState).result = false ∧
    (sensorsTest (fun _ => false) true true initState).mpuCalls = 300 ∧
    (0 < 300 ∧ (fun _ => true : ℕ → Bool) 0 = true) ∧
    (sensorsTest (fun _ => true) true true initState).mpuCalls = 0 + 1 :=
  ⟨fun _ _ => rfl,
   ((runSelfTest_retry (fun _ => false) true true initState).2.1 (fun _ _ => rfl)).1,
   ((runSelfTest_retry (fun _ => false) true true initState).2.1 (fun _ _ => rfl)).2,
   ⟨by omega, rfl⟩,
   (runSelfTest_retry (fun _ => true) true true initState).2.2 0 (by omega) rfl
     (fun k hk => absurd hk (Nat.not_lt_zero k))⟩

/-- C6 counterexample: magnetometer and barometer both detected present, init
done, but the primary self-test fails all 300 attempts — neither the
magnetometer nor the barometer self-test is executed, although present, so
presence is not the sole gating condition. -/
theorem selfTest_presence_counterexample :
    ({ initState with isInit := true, isMagnetometerPresent := true,
                      isBarometerPresent := true } : ModuleState).isMagnetometerPresent
      = true ∧
    ({ initState with isInit := true, isMagnetometerPresent := true,
                      isBarometerPresent := true } : ModuleState).isBarometerPresent
      = true ∧
    (sensorsTest (fun _ => false) true true
      { initState with isInit := true, isMagnetometerPresent := true,
                       isBarometerPresent := true }).akCalls = 0 ∧
    (sensorsTest (fun _ => false) true true
      { initState with isInit := true, isMagnetometerPresent := true,
                       isBarometerPresent := true }).lpsCalls = 0 := by
  refine ⟨rfl, rfl, ?_, ?_⟩ <;> decide

/-- C6 (amended): during one orchestrator run each auxiliary self-test runs at
most once; the magnetometer self-test runs exactly once iff init completed, the
primary self-test passed within its 300 attempts, and the magnetometer is
present; the barometer self-test runs exactly once iff additionally the
magnetometer self-test passed and the barometer is present. Presence alone does
not gate these runs. -/
theorem selfTest_presence_gating (f : ℕ → Bool) (ak lps : Bool) (s : ModuleState) :
    (sensorsTest f ak lps s).akCalls =
      (if (s.isInit && (mpuLoop f 0 300).1) && s.isMagnetometerPresent then 1 else 0) ∧
    (sensorsTest f ak lps s).lpsCalls =
      (if ((s.isInit && (mpuLoop f 0 300).1) && s.isMagnetometerPresent) &&
          (ak && s.isBarometerPresent) then 1 else 0) := by
  simp only [sensorsTest]
  split_ifs with h1 h2 <;> simp_all

/-- A trace in which the observer's four reads straddle a publish: publish of
cycle 1, one read, publish of cycle 2, the three remaining reads. -/
def mixedTrace : List PubEv :=
  [PubEv.publish 1, PubEv.readCh Chan.chanGyro, PubEv.publish 2,
   PubEv.readCh Chan.chanAcc, PubEv.readCh Chan.chanMag, PubEv.readCh Chan.chanBaro]

/-- C3 counterexample: a reader that reads all four channels, with a publish
between its reads, observes cycle 1 on the gyro channel together with cycle 2 on
the other three — the claim that no reader reading all four channels ever
observes two different cycles mixed is false. -/
theorem publish_mixed_observation_counterexample :
    (runTrace mixedTrace emptySlots).2 =
      [(Chan.chanGyro, some 1), (Chan.chanAcc, some 2), (Chan.chanMag, some 2),
       (Chan.chanBaro, some 2)] ∧
    ¬ (∀ (c c' : Chan) (n n' : ℕ),
        (c, some n) ∈ (runTrace mixedTrace emptySlots).2 →
        (c', some n') ∈ (runTrace mixedTrace emptySlots).2 → n = n') := by
  have hout : (runTrace mixedTrace emptySlots).2 =
      [(Chan.chanGyro, some 1), (Chan.chanAcc, some 2), (Chan.chanMag, some 2),
       (Chan.chanBaro, some 2)] := rfl
  refine ⟨hout, fun h => ?_⟩
  have h12 : (1 : ℕ) = 2 :=
    h Chan.chanGyro Chan.chanAcc 1 2 (by rw [hout]; simp) (by rw [hout]; simp)
  omega

/-- Every state reached from empty slots has all pending values from one cycle:
the publish is a single indivisible group write. -/
theorem runTrace_consistent (evs : List PubEv) :
    ∀ s : Slots, slotsConsistent s → slotsConsistent (runTrace evs s).1 := by
  induction evs with
  | nil => intro s hs; exact hs
  | cons e rest ih =>
    intro s hs
    match e with
    | PubEv.publish n =>
      refine ih (pubStep s n) ?_
      intro c c' m m' hc hc'
      simp only [pubStep, Option.some.injEq] at hc hc'
      omega
    | PubEv.readCh c0 =>
      refine ih _ ?_
      intro c c' m m' hc hc'
      simp only [runTrace, readStep] at hc hc'
      by_cases h1 : c = c0 <;> by_cases h2 : c' = c0 <;>
        simp [h1, h2] at hc hc' <;> exact hs c c' m m' hc hc'

/-- In a run of pure reads from a state whose slots are each empty or equal to
the corresponding slot of `s`, every observed value is empty or the `s`-value of
its channel. -/
theorem reads_observe_state (block : List PubEv) :
    ∀ (s t : Slots), (∀ e ∈ block, isReadEv e = true) →
      (∀ c, t c = none ∨ t c = s c) →
      ∀ (c : Chan) (v : Option ℕ), (c, v) ∈ (runTrace block t).2 →
        v = none ∨ v = s c := by
  induction block with
  | nil => intro s t _ _ c v hv; simp [runTrace] at hv
  | cons e rest ih =>
    intro s t hr ht c v hv
    match e with
    | PubEv.publish n => exact absurd (hr _ (List.mem_cons_self _ _)) (by simp [isReadEv])
    | PubEv.readCh c0 =>
      simp only [runTrace, readStep, List.mem_cons, Prod.mk.injEq] at hv
      rcases hv with ⟨hc, hvv⟩ | hv
      · subst hc hvv; exact ht c
      · refine ih s _ (fun e he => hr e (List.mem_cons_of_mem _ he)) ?_ c v hv
        intro c'
        by_cases h : c' = c0
        · simp [h]
        · simpa [h] using ht c'

/-- C3 (amended): the publish critical section writes the four slots as one
indivisible group, so all simultaneously pending values always come from one
cycle, and an observer whose four reads are not interleaved with any publish can
only observe values of a single cycle; mixing (counterexample above) requires a
publish between the observer's reads. -/
theorem publish_atomic_group (pre block : List PubEv)
    (hblock : ∀ e ∈ block, isReadEv e = true) :
    slotsConsistent (runTrace pre emptySlots).1 ∧
    ∀ (c c' : Chan) (n n' : ℕ),
      (c, some n) ∈ (runTrace block (runTrace pre emptySlots).1).2 →
      (c', some n') ∈ (runTrace block (runTrace pre emptySlots).1).2 → n = n' := by
  have hcons : slotsConsistent (runTrace pre emptySlots).1 :=
    runTrace_consistent pre emptySlots (fun c c' m m' hc _ => by simp [emptySlots] at hc)
  refine ⟨hcons, ?_⟩
  intro c c' n n' hn hn'
  have h1 := reads_observe_state block (runTrace pre emptySlots).1
    (runTrace pre emptySlots).1 hblock (fun c => Or.inr rfl) c (some n) hn
  have h2 := reads_observe_state block (runTrace pre emptySlots).1
    (runTrace pre emptySlots).1 hblock (fun c => Or.inr rfl) c' (some n') hn'
  rcases h1 with h1 | h1
  · exact absurd h1 (by simp)
  · rcases h2 with h2 | h2
    · exact absurd h2 (by simp)
    · exact hcons c c' n n' h1.symm h2.symm

/-- C3 witness: after a publish of cycle 5, a four-read observer block with no
interleaved publish observes only cycle 5. -/
theorem publish_atomic_group_witness :
    (∀ e ∈ [PubEv.readCh Chan.chanAcc, PubEv.readCh Chan.chanGyro,
            PubEv.readCh Chan.chanMag, PubEv.readCh Chan.chanBaro],
        isReadEv e = true) ∧
    ∀ (c c' : Chan) (n n' : ℕ),
      (c, some n) ∈ (runTrace
        [PubEv.readCh Chan.chanAcc, PubEv.readCh Chan.chanGyro,
         PubEv.readCh Chan.chanMag, PubEv.readCh Chan.chanBaro]
        (runTrace [PubEv.publish 5] emptySlots).1).2 →
      (c', some n') ∈ (runTrace
        [PubEv.readCh Chan.chanAcc, PubEv.readCh Chan.chanGyro,
         PubEv.readCh Chan.chanMag, PubEv.readCh Chan.chanBaro]
        (runTrace [PubEv.publish 5] emptySlots).1).2 → n = n' :=
  ⟨by decide,
   (publish_atomic_group [PubEv.publish 5]
     [PubEv.readCh Chan.chanAcc, PubEv.readCh Chan.chanGyro,
      PubEv.readCh Chan.chanMag, PubEv.readCh Chan.chanBaro] (by decide)).2⟩

/-- The square-root model maps 0 to 0. -/
theorem ratSqrt_zero : ratSqrt 0 = 0 := by simp [ratSqrt]

/-- The square-root model is exact on squares of nonnegative rationals. -/
theorem ratSqrt_sq (q : ℚ) (hq : 0 ≤ q) : ratSqrt (q ^ 2) = q := by
  rcases eq_or_lt_of_le hq with h0 | hpos
  · rw [← h0]
    norm_num [ratSqrt]
  · have hne : ¬ q ^ 2 ≤ 0 := not_le.mpr (by positivity)
    rw [ratSqrt, if_neg hne]
    have hnum : (q ^ 2).num = q.num * q.num := by rw [pow_two]; exact Rat.mul_self_num q
    have hden : (q ^ 2).den = q.den * q.den := by rw [pow_two]; exact Rat.mul_self_den q
    have hn0 : 0 ≤ q.num := Rat.num_nonneg.mpr hq
    have hqn : q.num = (q.num.toNat : ℤ) := (Int.toNat_of_nonneg hn0).symm
    have htn : (q ^ 2).num.toNat = q.num.toNat * q.num.toNat := by
      rw [hnum]
      conv_lhs => rw [hqn]
      rw [← Nat.cast_mul, Int.toNat_natCast]
    rw [htn, hden, Nat.sqrt_eq, Nat.sqrt_eq]
    have hcast : ((q.num.toNat : ℕ) : ℚ) = ((q.num : ℤ) : ℚ) := by
      exact_mod_cast congrArg (fun z : ℤ => (z : ℚ)) hqn.symm
    rw [hcast]
    exact Rat.num_div_den q

/-- Once calibration has completed, a cycle leaves the entire calibration state
(bias, std-dev, scale, count, `ready`) untouched. -/
theorem processAccGyro_frozen (buffer : ℕ → ℕ) (s : ModuleState)
    (h : s.sensorBiasFound = true) :
    (processAccGyroMeasurements buffer s).sensorBiasFound = true ∧
    (processAccGyroMeasurements buffer s).gyroBias = s.gyroBias ∧
    (processAccGyroMeasurements buffer s).gyroBiasStdDev = s.gyroBiasStdDev ∧
    (processAccGyroMeasurements buffer s).accScale = s.accScale ∧
    (processAccGyroMeasurements buffer s).sensorBiasSampleCount =
      s.sensorBiasSampleCount := by
  simp [processAccGyroMeasurements, h]

/-- The frozen property extends to any sequence of subsequent cycles. -/
theorem processAccGyro_frozen_fold (bufs : List (ℕ → ℕ)) :
    ∀ s : ModuleState, s.sensorBiasFound = true →
      (bufs.foldl (fun st b => processAccGyroMeasurements b st) s).sensorBiasFound = true ∧
      (bufs.foldl (fun st b => processAccGyroMeasurements b st) s).gyroBias = s.gyroBias ∧
      (bufs.foldl (fun st b => processAccGyroMeasurements b st) s).gyroBiasStdDev =
        s.gyroBiasStdDev ∧
      (bufs.foldl (fun st b => processAccGyroMeasurements b st) s).accScale = s.accScale ∧
      (bufs.foldl (fun st b => processAccGyroMeasurements b st) s).sensorBiasSampleCount =
        s.sensorBiasSampleCount := by
  induction bufs with
  | nil => intro s h; exact ⟨h, rfl, rfl, rfl, rfl⟩
  | cons b bs ih =>
    intro s h
    have hstep := processAccGyro_frozen b s h
    have hrest := ih _ hstep.1
    refine ⟨hrest.1, ?_, ?_, ?_, ?_⟩ <;>
      simp only [List.foldl_cons] at hrest ⊢
    · rw [hrest.2.1, hstep.2.1]
    · rw [hrest.2.2.1, hstep.2.2.1]
    · rw [hrest.2.2.2.1, hstep.2.2.2.1]
    · rw [hrest.2.2.2.2, hstep.2.2.2.2]

/-- One accumulation cycle below the threshold: the running sums, sums of
squares, accel-magnitude sum and sample count all advance by the current
sample, and calibration stays incomplete. -/
theorem processAccGyro_accum_step (buffer : ℕ → ℕ) (s : ModuleState)
    (h : s.sensorBiasFound = false)
    (hc : s.sensorBiasSampleCount + 1 ≠ IMU_SENSOR_BIAS_SAMPLES) :
    (processAccGyroMeasurements buffer s).sensorBiasFound = false ∧
    (processAccGyroMeasurements buffer s).sensorBiasSampleCount =
      s.sensorBiasSampleCount + 1 ∧
    (processAccGyroMeasurements buffer s).gyroBiasSampleSum.x =
      s.gyroBiasSampleSum.x + (gyroWords buffer).x ∧
    (processAccGyroMeasurements buffer s).gyroBiasSampleSum.y =
      s.gyroBiasSampleSum.y + (gyroWords buffer).y ∧
    (processAccGyroMeasurements buffer s).gyroBiasSampleSum.z =
      s.gyroBiasSampleSum.z + (gyroWords buffer).z ∧
    (processAccGyroMeasurements buffer s).gyroBiasSampleSumSquares.x =
      s.gyroBiasSampleSumSquares.x + (gyroWords buffer).x * (gyroWords buffer).x ∧
    (processAccGyroMeasurements buffer s).gyroBiasSampleSumSquares.y =
      s.gyroBiasSampleSumSquares.y + (gyroWords buffer).y * (gyroWords buffer).y ∧
    (processAccGyroMeasurements buffer s).gyroBiasSampleSumSquares.z =
      s.gyroBiasSampleSumSquares.z + (gyroWords buffer).z * (gyroWords buffer).z ∧
    (processAccGyroMeasurements buffer s).accScaleSum = s.accScaleSum + accMag buffer := by
  simp [processAccGyroMeasurements, h, hc, gyroWords, accelWords, accMag]

/-- The threshold cycle: on the sample that reaches `IMU_SENSOR_BIAS_SAMPLES`,
bias, std-dev and accel scale are computed from the final sums and `ready`
becomes true. -/
theorem processAccGyro_threshold_step (buffer : ℕ → ℕ) (s : ModuleState)
    (h : s.sensorBiasFound = false)
    (hc : s.sensorBiasSampleCount + 1 = IMU_SENSOR_BIAS_SAMPLES) :
    (processAccGyroMeasurements buffer s).sensorBiasFound = true ∧
    (processAccGyroMeasurements buffer s).sensorBiasSampleCount =
      s.sensorBiasSampleCount + 1 ∧
    (processAccGyroMeasurements buffer s).gyroBias.x =
      ((s.gyroBiasSampleSum.x + (gyroWords buffer).x : ℤ) : ℚ) /
        (IMU_SENSOR_BIAS_SAMPLES : ℚ) ∧
    (processAccGyroMeasurements buffer s).gyroBias.y =
      ((s.gyroBiasSampleSum.y + (gyroWords buffer).y : ℤ) : ℚ) /
        (IMU_SENSOR_BIAS_SAMPLES : ℚ) ∧
    (processAccGyroMeasurements buffer s).gyroBias.z =
      ((s.gyroBiasSampleSum.z + (gyroWords buffer).z : ℤ) : ℚ) /
        (IMU_SENSOR_BIAS_SAMPLES : ℚ) ∧
    (processAccGyroMeasurements buffer s).gyroBiasStdDev.x =
      ratSqrt (((s.gyroBiasSampleSumSquares.x +
            (gyroWords buffer).x * (gyroWords buffer).x : ℤ) : ℚ) /
          (IMU_SENSOR_BIAS_SAMPLES : ℚ) -
        ((s.gyroBiasSampleSum.x + (gyroWords buffer).x : ℤ) : ℚ) /
            (IMU_SENSOR_BIAS_SAMPLES : ℚ) *
          (((s.gyroBiasSampleSum.x + (gyroWords buffer).x : ℤ) : ℚ) /
            (IMU_SENSOR_BIAS_SAMPLES : ℚ))) ∧
    (processAccGyroMeasurements buffer s).gyroBiasStdDev.y =
      ratSqrt (((s.gyroBiasSampleSumSquares.y +
            (gyroWords buffer).y * (gyroWords buffer).y : ℤ) : ℚ) /
          (IMU_SENSOR_BIAS_SAMPLES : ℚ) -
        ((s.gyroBiasSampleSum.y + (gyroWords buffer).y : ℤ) : ℚ) /
            (IMU_SENSOR_BIAS_SAMPLES : ℚ) *
          (((s.gyroBiasSampleSum.y + (gyroWords buffer).y : ℤ) : ℚ) /
            (IMU_SENSOR_BIAS_SAMPLES : ℚ))) ∧
    (processAccGyroMeasurements buffer s).gyroBiasStdDev.z =
      ratSqrt (((s.gyroBiasSampleSumSquares.z +
            (gyroWords buffer).z * (gyroWords buffer).z : ℤ) : ℚ) /
          (IMU_SENSOR_BIAS_SAMPLES : ℚ) -
        ((s.gyroBiasSampleSum.z + (gyroWords buffer).z : ℤ) : ℚ) /
            (IMU_SENSOR_BIAS_SAMPLES : ℚ) *
          (((s.gyroBiasSampleSum.z + (gyroWords buffer).z : ℤ) : ℚ) /
            (IMU_SENSOR_BIAS_SAMPLES : ℚ))) ∧
    (processAccGyroMeasurements buffer s).accScaleSum = s.accScaleSum + accMag buffer ∧
    (processAccGyroMeasurements buffer s).accScale =
      (s.accScaleSum + accMag buffer) / (IMU_SENSOR_BIAS_SAMPLES : ℚ) := by
  simp [processAccGyroMeasurements, h, hc, gyroWords, accelWords, accMag]

/-- Below the threshold, the calibration accumulators hold exactly the partial
sums of the decoded samples and the sample count equals the number of cycles. -/
theorem calib_accum (bufs : ℕ → ℕ → ℕ) :
    ∀ k, k < IMU_SENSOR_BIAS_SAMPLES →
      (runCycles bufs k initState).sensorBiasFound = false ∧
      (runCycles bufs k initState).sensorBiasSampleCount = k ∧
      (runCycles bufs k initState).gyroBiasSampleSum.x =
        ∑ i in Finset.range k, (gyroWords (bufs i)).x ∧
      (runCycles bufs k initState).gyroBiasSampleSum.y =
        ∑ i in Finset.range k, (gyroWords (bufs i)).y ∧
      (runCycles bufs k initState).gyroBiasSampleSum.z =
        ∑ i in Finset.range k, (gyroWords (bufs i)).z ∧
      (runCycles bufs k initState).gyroBiasSampleSumSquares.x =
        ∑ i in Finset.range k, (gyroWords (bufs i)).x * (gyroWords (bufs i)).x ∧
      (runCycles bufs k initState).gyroBiasSampleSumSquares.y =
        ∑ i in Finset.range k, (gyroWords (bufs i)).y * (gyroWords (bufs i)).y ∧
      (runCycles bufs k initState).gyroBiasSampleSumSquares.z =
        ∑ i in Finset.range k, (gyroWords (bufs i)).z * (gyroWords (bufs i)).z ∧
      (runCycles bufs k initState).accScaleSum = ∑ i in Finset.range k, accMag (bufs i) := by
  intro k
  induction k with
  | zero => intro _; simp [runCycles, initState]
  | succ k ih =>
    intro hk
    obtain ⟨hf, hc, hsx, hsy, hsz, hqx, hqy, hqz, ha⟩ := ih (by omega)
    have hk' : k + 1 < 1024 := by simpa [IMU_SENSOR_BIAS_SAMPLES] using hk
    have hcnt : (runCycles bufs k initState).sensorBiasSampleCount + 1 ≠
        IMU_SENSOR_BIAS_SAMPLES := by
      rw [hc]
      simp only [IMU_SENSOR_BIAS_SAMPLES]
      omega
    have hstep := processAccGyro_accum_step (bufs k) (runCycles bufs k initState) hf hcnt
    refine ⟨?_, ?_, ?_, ?_, ?_, ?_, ?_, ?_, ?_⟩ <;> simp only [runCycles]
    · exact hstep.1
    · rw [hstep.2.1, hc]
    · rw [hstep.2.2.1, hsx, Finset.sum_range_succ]
    · rw [hstep.2.2.2.1, hsy, Finset.sum_range_succ]
    · rw [hstep.2.2.2.2.1, hsz, Finset.sum_range_succ]
    · rw [hstep.2.2.2.2.2.1, hqx, Finset.sum_range_succ]
    · rw [hstep.2.2.2.2.2.2.1, hqy, Finset.sum_range_succ]
    · rw [hstep.2.2.2.2.2.2.2.1, hqz, Finset.sum_range_succ]
    · rw [hstep.2.2.2.2.2.2.2.2, ha, Finset.sum_range_succ]

/-- C1: from the freshly initialized module (`ready` false), 1024 cycles whose
raw gyro words all decode to the constant vector `g` produce `gyroBias = g` on
every axis and zero diagnostic standard deviation, set `sensorBiasFound`, and
freeze `sensorBiasFound`, `gyroBias`, `accScale` and `sensorBiasSampleCount`
against every subsequent cycle regardless of its input. -/
theorem gyro_calibration_constant (g : Axis3 ℤ) (bufs : ℕ → ℕ → ℕ)
    (hg : ∀ i, i < IMU_SENSOR_BIAS_SAMPLES → gyroWords (bufs i) = g) :
    initState.sensorBiasFound = false ∧
    (runCycles bufs IMU_SENSOR_BIAS_SAMPLES initState).gyroBias.x = (g.x : ℚ) ∧
    (runCycles bufs IMU_SENSOR_BIAS_SAMPLES initState).gyroBias.y = (g.y : ℚ) ∧
    (runCycles bufs IMU_SENSOR_BIAS_SAMPLES initState).gyroBias.z = (g.z : ℚ) ∧
    (runCycles bufs IMU_SENSOR_BIAS_SAMPLES initState).gyroBiasStdDev.x = 0 ∧
    (runCycles bufs IMU_SENSOR_BIAS_SAMPLES initState).gyroBiasStdDev.y = 0 ∧
    (runCycles bufs IMU_SENSOR_BIAS_SAMPLES initState).gyroBiasStdDev.z = 0 ∧
    (runCycles bufs IMU_SENSOR_BIAS_SAMPLES initState).sensorBiasFound = true ∧
    (runCycles bufs IMU_SENSOR_BIAS_SAMPLES initState).sensorBiasSampleCount =
      IMU_SENSOR_BIAS_SAMPLES ∧
    ∀ more : List (ℕ → ℕ),
      (more.foldl (fun st b => processAccGyroMeasurements b st)
          (runCycles bufs IMU_SENSOR_BIAS_SAMPLES initState)).sensorBiasFound = true ∧
      (more.foldl (fun st b => processAccGyroMeasurements b st)
          (runCycles bufs IMU_SENSOR_BIAS_SAMPLES initState)).gyroBias =
        (runCycles bufs IMU_SENSOR_BIAS_SAMPLES initState).gyroBias ∧
      (more.foldl (fun st b => processAccGyroMeasurements b st)
          (runCycles bufs IMU_SENSOR_BIAS_SAMPLES initState)).accScale =
        (runCycles bufs IMU_SENSOR_BIAS_SAMPLES initState).accScale ∧
      (more.foldl (fun st b => processAccGyroMeasurements b st)
          (runCycles bufs IMU_SENSOR_BIAS_SAMPLES initState)).sensorBiasSampleCount =
        (runCycles bufs IMU_SENSOR_BIAS_SAMPLES initState).sensorBiasSampleCount := by
  have hN4 : (IMU_SENSOR_BIAS_SAMPLES : ℚ) = 1024 := by norm_num [IMU_SENSOR_BIAS_SAMPLES]
  obtain ⟨hf, hc, hsx, hsy, hsz, hqx, hqy, hqz, _⟩ :=
    calib_accum bufs 1023 (by norm_num [IMU_SENSOR_BIAS_SAMPLES])
  have hcnt : (runCycles bufs 1023 initState).sensorBiasSampleCount + 1 =
      IMU_SENSOR_BIAS_SAMPLES := by
    rw [hc]
    norm_num [IMU_SENSOR_BIAS_SAMPLES]
  have hth := processAccGyro_threshold_step (bufs 1023) (runCycles bufs 1023 initState)
    hf hcnt
  have hrun : runCycles bufs IMU_SENSOR_BIAS_SAMPLES initState =
      processAccGyroMeasurements (bufs 1023) (runCycles bufs 1023 initState) := rfl
  have hgw : ∀ i ∈ Finset.range 1024, gyroWords (bufs i) = g := fun i hi =>
    hg i (by simpa [IMU_SENSOR_BIAS_SAMPLES] using Finset.mem_range.mp hi)
  have hSx : (runCycles bufs 1023 initState).gyroBiasSampleSum.x +
      (gyroWords (bufs 1023)).x = 1024 * g.x := by
    rw [hsx, ← Finset.sum_range_succ,
      Finset.sum_congr rfl (fun i hi => by rw [hgw i hi]),
      Finset.sum_const, Finset.card_range, nsmul_eq_mul]
    norm_num
  have hSy : (runCycles bufs 1023 initState).gyroBiasSampleSum.y +
      (gyroWords (bufs 1023)).y = 1024 * g.y := by
    rw [hsy, ← Finset.sum_range_succ,
      Finset.sum_congr rfl (fun i hi => by rw [hgw i hi]),
      Finset.sum_const, Finset.card_range, nsmul_eq_mul]
    norm_num
  have hSz : (runCycles bufs 1023 initState).gyroBiasSampleSum.z +
      (gyroWords (bufs 1023)).z = 1024 * g.z := by
    rw [hsz, ← Finset.sum_range_succ,
      Finset.sum_congr rfl (fun i hi => by rw [hgw i hi]),
      Finset.sum_const, Finset.card_range, nsmul_eq_mul]
    norm_num
  have hQx : (runCycles bufs 1023 initState).gyroBiasSampleSumSquares.x +
      (gyroWords (bufs 1023)).x * (gyroWords (bufs 1023)).x = 1024 * (g.x * g.x) := by
    rw [hqx, ← Finset.sum_range_succ,
      Finset.sum_congr rfl (fun i hi => by rw [hgw i hi]),
      Finset.sum_const, Finset.card_range, nsmul_eq_mul]
    norm_num
  have hQy : (runCycles bufs 1023 initState).gyroBiasSampleSumSquares.y +
      (gyroWords (bufs 1023)).y * (gyroWords (bufs 1023)).y = 1024 * (g.y * g.y) := by
    rw [hqy, ← Finset.sum_range_succ,
      Finset.sum_congr rfl (fun i hi => by rw [hgw i hi]),
      Finset.sum_const, Finset.card_range, nsmul_eq_mul]
    norm_num
  have hQz : (runCycles bufs 1023 initState).gyroBiasSampleSumSquares.z +
      (gyroWords (bufs 1023)).z * (gyroWords (bufs 1023)).z = 1024 * (g.z * g.z) := by
    rw [hqz, ← Finset.sum_range_succ,
      Finset.sum_congr rfl (fun i hi => by rw [hgw i hi]),
      Finset.sum_const, Finset.card_range, nsmul_eq_mul]
    norm_num
  have hdiv : ∀ a : ℤ, ((1024 * a : ℤ) : ℚ) / (IMU_SENSOR_BIAS_SAMPLES : ℚ) = (a : ℚ) := by
    intro a
    rw [hN4]
    push_cast
    ring
  have hrad : ∀ a : ℤ, ((1024 * (a * a) : ℤ) : ℚ) / (IMU_SENSOR_BIAS_SAMPLES : ℚ) -
      ((1024 * a : ℤ) : ℚ) / (IMU_SENSOR_BIAS_SAMPLES : ℚ) *
        (((1024 * a : ℤ) : ℚ) / (IMU_SENSOR_BIAS_SAMPLES : ℚ)) = 0 := by
    intro a
    rw [hN4]
    push_cast
    ring
  have hfound : (runCycles bufs IMU_SENSOR_BIAS_SAMPLES initState).sensorBiasFound =
      true := by
    rw [hrun]; exact hth.1
  refine ⟨rfl, ?_, ?_, ?_, ?_, ?_, ?_, hfound, ?_, ?_⟩
  · rw [hrun, hth.2.2.1, hSx]; exact hdiv g.x
  · rw [hrun, hth.2.2.2.1, hSy]; exact hdiv g.y
  · rw [hrun, hth.2.2.2.2.1, hSz]; exact hdiv g.z
  · rw [hrun, hth.2.2.2.2.2.1, hQx, hSx, hrad g.x]; exact ratSqrt_zero
  · rw [hrun, hth.2.2.2.2.2.2.1, hQy, hSy, hrad g.y]; exact ratSqrt_zero
  · rw [hrun, hth.2.2.2.2.2.2.2.1, hQz, hSz, hrad g.z]; exact ratSqrt_zero
  · rw [hrun, hth.2.1, hc]
    norm_num [IMU_SENSOR_BIAS_SAMPLES]
  · intro more
    have hfold := processAccGyro_frozen_fold more
      (runCycles bufs IMU_SENSOR_BIAS_SAMPLES initState) hfound
    exact ⟨hfold.1, hfold.2.1, hfold.2.2.2.1, hfold.2.2.2.2⟩

/-- Constant buffer for the C1 witness: gyro words decode to `(1, 2, 3)`. -/
def c1buf : ℕ → ℕ
  | 9 => 2
  | 11 => 1
  | 13 => 3
  | _ => 0

/-- C1 witness: the constant frame `c1buf` satisfies the constant-gyro hypothesis
with `g = (1, 2, 3)`, and after 1024 such cycles calibration is complete with
bias `(1, 2, 3)`. -/
theorem gyro_calibration_constant_witness :
    (∀ i, i < IMU_SENSOR_BIAS_SAMPLES →
      gyroWords ((fun _ => c1buf) i) = (⟨1, 2, 3⟩ : Axis3 ℤ)) ∧
    (runCycles (fun _ => c1buf) IMU_SENSOR_BIAS_SAMPLES initState).sensorBiasFound =
      true ∧
    (runCycles (fun _ => c1buf) IMU_SENSOR_BIAS_SAMPLES initState).gyroBias.x =
      ((1 : ℤ) : ℚ) :=
  ⟨fun _ _ => (by decide : gyroWords c1buf = (⟨1, 2, 3⟩ : Axis3 ℤ)),
   (gyro_calibration_constant ⟨1, 2, 3⟩ (fun _ => c1buf)
     (fun _ _ => (by decide : gyroWords c1buf = (⟨1, 2, 3⟩ : Axis3 ℤ)))).2.2.2.2.2.2.2.1,
   (gyro_calibration_constant ⟨1, 2, 3⟩ (fun _ => c1buf)
     (fun _ _ => (by decide : gyroWords c1buf = (⟨1, 2, 3⟩ : Axis3 ℤ)))).2.1⟩

/-- C9: from the freshly initialized module, 1024 cycles whose accelerometer
words have constant integer magnitude `M` (in LSB) accumulate per-cycle
magnitudes at unit scale (`M · gPerLsb` each, before any bias or scale
correction), so the resulting `accScale` is `M · gPerLsb`. -/
theorem accelScale_constant_magnitude (M : ℕ) (bufs : ℕ → ℕ → ℕ)
    (hM : ∀ i, i < IMU_SENSOR_BIAS_SAMPLES →
      (accelWords (bufs i)).x * (accelWords (bufs i)).x +
        (accelWords (bufs i)).y * (accelWords (bufs i)).y +
        (accelWords (bufs i)).z * (accelWords (bufs i)).z = (M : ℤ) * (M : ℤ)) :
    initState.sensorBiasFound = false ∧
    (∀ i, i < IMU_SENSOR_BIAS_SAMPLES →
      accMag (bufs i) = (M : ℚ) * IMU_G_PER_LSB_CFG) ∧
    (runCycles bufs IMU_SENSOR_BIAS_SAMPLES initState).accScaleSum =
      (IMU_SENSOR_BIAS_SAMPLES : ℚ) * ((M : ℚ) * IMU_G_PER_LSB_CFG) ∧
    (runCycles bufs IMU_SENSOR_BIAS_SAMPLES initState).accScale =
      (M : ℚ) * IMU_G_PER_LSB_CFG := by
  have hN4 : (IMU_SENSOR_BIAS_SAMPLES : ℚ) = 1024 := by norm_num [IMU_SENSOR_BIAS_SAMPLES]
  have hmag : ∀ i, i < IMU_SENSOR_BIAS_SAMPLES →
      accMag (bufs i) = (M : ℚ) * IMU_G_PER_LSB_CFG := by
    intro i hi
    have h := hM i hi
    have hcast : ((accelWords (bufs i)).x : ℚ) * ((accelWords (bufs i)).x : ℚ) +
        ((accelWords (bufs i)).y : ℚ) * ((accelWords (bufs i)).y : ℚ) +
        ((accelWords (bufs i)).z : ℚ) * ((accelWords (bufs i)).z : ℚ) =
        (M : ℚ) * (M : ℚ) := by exact_mod_cast h
    have harg : (((accelWords (bufs i)).x : ℚ) * IMU_G_PER_LSB_CFG) ^ 2 +
        (((accelWords (bufs i)).y : ℚ) * IMU_G_PER_LSB_CFG) ^ 2 +
        (((accelWords (bufs i)).z : ℚ) * IMU_G_PER_LSB_CFG) ^ 2 =
        ((M : ℚ) * IMU_G_PER_LSB_CFG) ^ 2 := by
      linear_combination (IMU_G_PER_LSB_CFG * IMU_G_PER_LSB_CFG) * hcast
    rw [accMag, harg, ratSqrt_sq]
    exact mul_nonneg (Nat.cast_nonneg M) (by norm_num [IMU_G_PER_LSB_CFG])
  obtain ⟨hf, hc, _, _, _, _, _, _, ha⟩ :=
    calib_accum bufs 1023 (by norm_num [IMU_SENSOR_BIAS_SAMPLES])
  have hcnt : (runCycles bufs 1023 initState).sensorBiasSampleCount + 1 =
      IMU_SENSOR_BIAS_SAMPLES := by
    rw [hc]
    norm_num [IMU_SENSOR_BIAS_SAMPLES]
  have hth := processAccGyro_threshold_step (bufs 1023) (runCycles bufs 1023 initState)
    hf hcnt
  have hrun : runCycles bufs IMU_SENSOR_BIAS_SAMPLES initState =
      processAccGyroMeasurements (bufs 1023) (runCycles bufs 1023 initState) := rfl
  have hsum : (runCycles bufs 1023 initState).accScaleSum + accMag (bufs 1023) =
      1024 * ((M : ℚ) * IMU_G_PER_LSB_CFG) := by
    rw [ha, ← Finset.sum_range_succ,
      Finset.sum_congr rfl (fun i hi => hmag i
        (by simpa [IMU_SENSOR_BIAS_SAMPLES] using Finset.mem_range.mp hi)),
      Finset.sum_const, Finset.card_range, nsmul_eq_mul]
    norm_num
  refine ⟨rfl, hmag, ?_, ?_⟩
  · rw [hrun, hth.2.2.2.2.2.2.2.2.1, hsum, hN4]
  · rw [hrun, hth.2.2.2.2.2.2.2.2.2, hsum, hN4]
    ring

/-- Constant buffer for the C9 witness: accel words decode to `(1, 2, 2)`, of
magnitude 3 LSB. -/
def c9buf : ℕ → ℕ
  | 1 => 2
  | 3 => 1
  | 5 => 2
  | _ => 0

/-- C9 witness: the constant frame `c9buf` has accelerometer magnitude 3 LSB, and
after 1024 such cycles `accScale` is `3 · gPerLsb`. -/
theorem accelScale_constant_magnitude_witness :
    (∀ i, i < IMU_SENSOR_BIAS_SAMPLES →
      (accelWords ((fun _ => c9buf) i)).x * (accelWords ((fun _ => c9buf) i)).x +
        (accelWords ((fun _ => c9buf) i)).y * (accelWords ((fun _ => c9buf) i)).y +
        (accelWords ((fun _ => c9buf) i)).z * (accelWords ((fun _ => c9buf) i)).z =
        ((3 : ℕ) : ℤ) * ((3 : ℕ) : ℤ)) ∧
    (runCycles (fun _ => c9buf) IMU_SENSOR_BIAS_SAMPLES initState).accScale =
      ((3 : ℕ) : ℚ) * IMU_G_PER_LSB_CFG :=
  ⟨fun _ _ => (by decide :
      (accelWords c9buf).x * (accelWords c9buf).x +
        (accelWords c9buf).y * (accelWords c9buf).y +
        (accelWords c9buf).z * (accelWords c9buf).z = ((3 : ℕ) : ℤ) * ((3 : ℕ) : ℤ)),
   (accelScale_constant_magnitude 3 (fun _ => c9buf)
     (fun _ _ => (by decide :
       (accelWords c9buf).x * (accelWords c9buf).x +
         (accelWords c9buf).y * (accelWords c9buf).y +
         (accelWords c9buf).z * (accelWords c9buf).z =
         ((3 : ℕ) : ℤ) * ((3 : ℕ) : ℤ)))).2.2.2⟩
